import Mathlib

/-!
# Verification of the `json_placeholder` API client

Shallow embedding of `src/json_placeholder.py`: the `retry` decorator,
the `RequestApi` request dispatcher and the `JsonPlaceholderModifier`
domain operations, together with proofs of the specified properties.

Python floats in the retry configuration only ever undergo exact
multiplications here (0.5 doubled repeatedly), so delays are modelled by `ℚ`.
Python's `int` parameters are modelled by `Int` (so non-positive
`total_tries` is representable).
-/

set_option autoImplicit false

/-- JSON values as produced by `response.json()`. Objects keep Python `dict`
insertion order, hence an association list. -/
inductive JVal where
  | str (s : String)
  | num (n : Int)
  | jnull
  | obj (fields : List (String × JVal))

/-- A Python `dict` mapping strings to JSON values (insertion-ordered). -/
abbrev PyDict := List (String × JVal)

/-- A Python `dict` mapping strings to strings (request headers). -/
abbrev Headers := List (String × String)

/-- Lookup `d[k]` in a Python dict: the value at the first matching key. -/
def dictGet (d : PyDict) (k : String) : Option JVal :=
  match d with
  | [] => none
  | (k', v) :: rest => if k' = k then some v else dictGet rest k

/-- Assignment `d[k] = v` on a Python dict: overwrite in place when the key
exists, otherwise append the new pair at the end (insertion order). -/
def dictSet (d : PyDict) (k : String) (v : JVal) : PyDict :=
  match d with
  | [] => [(k, v)]
  | (k', v') :: rest => if k' = k then (k', v) :: rest else (k', v') :: dictSet rest k v

/-- The Python exceptions that can occur in this program.
`httpError` is `requests.HTTPError` (carrying status code and reason),
`connectionError` stands for transport-level failures such as
`requests.ConnectionError`, `keyError` is `KeyError`, and `other` covers the
remaining exception kinds (e.g. `TypeError`, `AttributeError`). -/
inductive PyError where
  | httpError (code : Nat) (reason : String)
  | connectionError
  | keyError (key : String)
  | other (name : String)
  deriving DecidableEq, Repr

/-- Is the error a `requests.HTTPError` (for the `except requests.HTTPError`
clauses of the domain layer)? -/
def PyError.isHttpError : PyError → Bool
  | .httpError _ _ => true
  | _ => false

/-- What a call of the retry-wrapped function observably does: return a value,
propagate an exception, or fall off the `while` loop returning `None`. -/
inductive RetryOutcome (α : Type) where
  | ok (a : α)
  | raised (e : PyError)
  | noneResult
  deriving DecidableEq, Repr

/-- Observable trace of one call of `func_with_retry`: the outcome, the number
of invocations of the wrapped `func`, and the delays passed to `time.sleep`
in order. -/
structure RunTrace (α : Type) where
  outcome : RetryOutcome α
  calls : Nat
  sleeps : List ℚ
  deriving DecidableEq, Repr

/-- The arguments of the `retry` decorator (`exception_list`, `total_tries`,
`initial_wait`, `backoff_factor`). `retryable e = true` iff exception `e`
matches `exception_list`. The logger argument is observability only and is
not modelled. -/
structure RetryConfig where
  retryable : PyError → Bool
  total_tries : Int
  initial_wait : ℚ
  backoff_factor : ℚ

/-- The defaults of `def retry(exception_list, total_tries=5, initial_wait=.5,
backoff_factor=2, logger=None)`, at a given exception list. -/
def retryDefaults (retryable : PyError → Bool) : RetryConfig :=
  { retryable := retryable, total_tries := 5, initial_wait := 1/2, backoff_factor := 2 }

/-- The `while retries > 0` loop of `func_with_retry`, entered with counter
value `retries` (positive, represented as the `Nat` it stands for), current
`delay` and the backoff factor `b`. `f i` is the result of the `i`-th
invocation of the wrapped `func` (0-indexed); `q` is the retryable test.

One loop iteration: invoke `func`; on success return its value; on an
exception matching `exception_list` decrement `retries`, re-raise if the
counter hit zero, otherwise sleep `delay`, multiply `delay` by the backoff
factor and loop; an exception not matching `exception_list` propagates
out of the loop at once. -/
def retryLoop {α : Type} (q : PyError → Bool) (f : Nat → Except PyError α) (b : ℚ) :
    Nat → Nat → ℚ → RunTrace α
  | _, 0, _ => ⟨.noneResult, 0, []⟩
  | idx, retries + 1, delay =>
    match f idx with
    | .ok a => ⟨.ok a, 1, []⟩
    | .error e =>
      if q e then
        if retries = 0 then
          ⟨.raised e, 1, []⟩
        else
          let rest := retryLoop q f b (idx + 1) retries (delay * b)
          ⟨rest.outcome, rest.calls + 1, delay :: rest.sleeps⟩
      else ⟨.raised e, 1, []⟩

/-- `func_with_retry`: sets `retries, delay = total_tries, initial_wait` and
runs the retry loop. A non-positive `total_tries` fails the loop guard at
once, so the loop body runs with counter values `total_tries, …, 1` —
exactly `total_tries.toNat` possible iterations. -/
def func_with_retry {α : Type} (cfg : RetryConfig) (f : Nat → Except PyError α) : RunTrace α :=
  retryLoop cfg.retryable f cfg.backoff_factor 0 cfg.total_tries.toNat cfg.initial_wait

/-- The successive values of the loop-local state `(retries, delay)` observed
at each execution of the loop body (plus the initial guard evaluation when the
loop never runs), for the same loop as `retryLoop`. The first component is the
Python `int` counter, kept as `Int`. The `fuel` argument drives termination
and equals `retries.toNat` on every reachable call. -/
def loopStates {α : Type} (q : PyError → Bool) (f : Nat → Except PyError α) (b : ℚ) :
    Nat → Nat → Int → ℚ → List (Int × ℚ)
  | _, 0, retries, delay => [(retries, delay)]
  | idx, fuel + 1, retries, delay =>
    if retries ≤ 0 then [(retries, delay)]
    else
      (retries, delay) ::
        match f idx with
        | .ok _ => []
        | .error e =>
          if q e then
            if retries = 1 then []
            else loopStates q f b (idx + 1) fuel (retries - 1) (delay * b)
          else []

/-- The `(retries, delay)` state trace of one call of `func_with_retry`. -/
def func_with_retry_states {α : Type} (cfg : RetryConfig) (f : Nat → Except PyError α) :
    List (Int × ℚ) :=
  loopStates cfg.retryable f cfg.backoff_factor 0 cfg.total_tries.toNat cfg.total_tries
    cfg.initial_wait

/-- `geomList d b k = [d, d*b, …, d*b^(k-1)]`: the delays slept across `k`
consecutive retries starting from delay `d` with backoff factor `b`. -/
def geomList (d b : ℚ) : Nat → List ℚ
  | 0 => []
  | k + 1 => d :: geomList (d * b) b k

/-- The five HTTP verbs exposed by `RequestApi`. -/
inductive Verb where
  | GET
  | POST
  | PUT
  | PATCH
  | DELETE
  deriving DecidableEq, Repr

/-- A `requests.models.Response`: status code, reason phrase, header mapping
and (already decoded) JSON body. `response.json()` yields `body`. -/
structure Response where
  status_code : Nat
  reason : String
  headers : Headers
  body : JVal

/-- The HTTP transport (the `requests` library plus the remote server), an
external collaborator: for a verb, full URL, optional JSON payload and
optional headers, the `i`-th invocation either raises a transport-level
error or yields a `Response`. The invocation index `i` lets one transport
value describe per-attempt behaviour (e.g. fail once, then succeed). -/
structure Transport where
  respond : Verb → String → Option PyDict → Option Headers → Nat → Except PyError Response

/-- Modelled from the `requests` library (external collaborator):
`Response.raise_for_status` raises `requests.HTTPError` exactly for 4xx
client errors and 5xx server errors, with a message carrying the status code
and the reason; otherwise it returns `None` and the dispatcher returns the
response unchanged. -/
def raise_for_status (r : Response) : Except PyError Response :=
  if 400 ≤ r.status_code ∧ r.status_code < 600 then
    .error (.httpError r.status_code r.reason)
  else
    .ok r

/-- `RequestApi`: holds the base API URL. -/
structure RequestApi where
  base_url : String

/-- The retry configuration used by every `RequestApi` method:
`@retry(Exception, total_tries=2, logger=logger)`. `Exception` is the root
class, so every modelled error is retryable; `initial_wait` and
`backoff_factor` keep their defaults `0.5` and `2`. -/
def requestApiRetryConfig : RetryConfig :=
  { retryable := fun _ => true, total_tries := 2, initial_wait := 1/2, backoff_factor := 2 }

/-- One attempt of a `RequestApi` method body: issue the transport call
(`requests.<verb>(f'{self.base_url}{api_path}', json=payload,
headers=headers)`, which may itself raise), then `response.raise_for_status()`
inside a `try` whose `except requests.HTTPError: raise` re-raises, so the net
effect is `transport result >>= raise_for_status`. -/
def requestAttempt (t : Transport) (v : Verb) (url : String) (payload : Option PyDict)
    (headers : Option Headers) (i : Nat) : Except PyError Response :=
  match t.respond v url payload headers i with
  | .ok r => raise_for_status r
  | .error e => .error e

/-- A `RequestApi` method call together with the requests it issued:
the retry-wrapped run and the `(verb, url)` of every transport invocation. -/
structure DispatchResult where
  run : RunTrace Response
  issued : List (Verb × String)

/-- The common body of the five `RequestApi` methods at verb `v`: build the
full URL by concatenation, then run the attempt under the retry wrapper.
Each invocation of the wrapped function issues exactly one transport request
with this verb and URL. -/
def RequestApi.requestVerb (api : RequestApi) (t : Transport) (v : Verb) (api_path : String)
    (payload : Option PyDict) (headers : Option Headers) : DispatchResult :=
  let url := api.base_url ++ api_path
  let run := func_with_retry requestApiRetryConfig (requestAttempt t v url payload headers)
  ⟨run, List.replicate run.calls (v, url)⟩

/-- `RequestApi.get` (decorated with `@retry(Exception, total_tries=2)`). -/
def RequestApi.get (api : RequestApi) (t : Transport) (api_path : String)
    (payload : Option PyDict := none) (headers : Option Headers := none) : DispatchResult :=
  api.requestVerb t .GET api_path payload headers

/-- `RequestApi.post` (decorated with `@retry(Exception, total_tries=2)`). -/
def RequestApi.post (api : RequestApi) (t : Transport) (api_path : String)
    (payload : Option PyDict := none) (headers : Option Headers := none) : DispatchResult :=
  api.requestVerb t .POST api_path payload headers

/-- `RequestApi.put` (decorated with `@retry(Exception, total_tries=2)`). -/
def RequestApi.put (api : RequestApi) (t : Transport) (api_path : String)
    (payload : Option PyDict := none) (headers : Option Headers := none) : DispatchResult :=
  api.requestVerb t .PUT api_path payload headers

/-- `RequestApi.patch` (decorated with `@retry(Exception, total_tries=2)`). -/
def RequestApi.patch (api : RequestApi) (t : Transport) (api_path : String)
    (payload : Option PyDict := none) (headers : Option Headers := none) : DispatchResult :=
  api.requestVerb t .PATCH api_path payload headers

/-- `RequestApi.delete` (decorated with `@retry(Exception, total_tries=2)`). -/
def RequestApi.delete (api : RequestApi) (t : Transport) (api_path : String)
    (payload : Option PyDict := none) (headers : Option Headers := none) : DispatchResult :=
  api.requestVerb t .DELETE api_path payload headers

/-- The `JsonPlaceholderModifier` constructor:
`self.requester = RequestApi('http://jsonplaceholder.typicode.com')`. -/
def JsonPlaceholderModifier.requester : RequestApi :=
  ⟨"http://jsonplaceholder.typicode.com"⟩

/-- Python indexing `v[field]` on a decoded JSON value: on a dict, the stored
value or `KeyError`; on anything else, a `TypeError`. -/
def jsonIndex (v : JVal) (field : String) : Except PyError JVal :=
  match v with
  | .obj d =>
    match dictGet d field with
    | some x => .ok x
    | none => .error (.keyError field)
  | _ => .error (.other "TypeError")

/-- What a domain-layer method observably does: `.ok (some x)` — returned
`x`; `.ok none` — returned Python `None` (an error was caught and logged);
`.error e` — exception `e` escaped to the caller. Paired with the list of
issued transport requests. -/
abbrev ModifierResult (α : Type) := Except PyError (Option α) × List (Verb × String)

/-- `JsonPlaceholderModifier.get_post_field`: GET `/posts/{post_number}`,
then `post.json()[field]`, all inside a `try` with `except KeyError` and
`except requests.HTTPError` clauses that log and return `None`; any other
exception escapes. A `None` from the requester would make `post.json()`
raise `AttributeError` (unreachable under `total_tries=2`). -/
def JsonPlaceholderModifier.get_post_field (t : Transport) (post_number field : String) :
    ModifierResult JVal :=
  let d := JsonPlaceholderModifier.requester.get t ("/posts/" ++ post_number)
  let result : Except PyError (Option JVal) :=
    match d.run.outcome with
    | .ok post =>
      match jsonIndex post.body field with
      | .ok x => .ok (some x)
      | .error (.keyError _) => .ok none
      | .error (.httpError _ _) => .ok none
      | .error e => .error e
    | .raised (.httpError _ _) => .ok none
    | .raised e => .error e
    | .noneResult => .error (.other "AttributeError")
  (result, d.issued)

/-- `JsonPlaceholderModifier.insert_new_field`: `post =
self.requester.get(f'/posts/{post_number}').json()` inside a `try` whose only
handler is `except requests.HTTPError` (log, return `None`); in the `else`
branch `post[field_key] = field_value; return post`. Assigning into a
non-dict body would raise `TypeError`, which escapes; a `None` requester
result would raise `AttributeError` inside the `try` (unreachable under
`total_tries=2`), which also escapes. -/
def JsonPlaceholderModifier.insert_new_field (t : Transport)
    (post_number field_key field_value : String) : ModifierResult JVal :=
  let d := JsonPlaceholderModifier.requester.get t ("/posts/" ++ post_number)
  let result : Except PyError (Option JVal) :=
    match d.run.outcome with
    | .ok post =>
      match post.body with
      | .obj fields => .ok (some (.obj (dictSet fields field_key (.str field_value))))
      | _ => .error (.other "TypeError")
    | .raised (.httpError _ _) => .ok none
    | .raised e => .error e
    | .noneResult => .error (.other "AttributeError")
  (result, d.issued)

/-- `JsonPlaceholderModifier.create_new_post`: `return self.requester.post(
'/posts', payload=body, headers={'Content-type': 'application/json;
charset=UTF-8'})` inside a `try` with `except requests.HTTPError` (log,
return `None`); other exceptions escape; a `None` requester result is
returned as-is. -/
def JsonPlaceholderModifier.create_new_post (t : Transport) (body : PyDict) :
    ModifierResult Response :=
  let d := JsonPlaceholderModifier.requester.post t "/posts" (some body)
    (some [("Content-type", "application/json; charset=UTF-8")])
  let result : Except PyError (Option Response) :=
    match d.run.outcome with
    | .ok r => .ok (some r)
    | .raised (.httpError _ _) => .ok none
    | .raised e => .error e
    | .noneResult => .ok none
  (result, d.issued)

/-- `JsonPlaceholderModifier.delete_post`: `return self.requester.delete(
f'/posts/{post_id}')` inside a `try` with `except requests.HTTPError` (log,
return `None`); other exceptions escape; a `None` requester result is
returned as-is. -/
def JsonPlaceholderModifier.delete_post (t : Transport) (post_id : String) :
    ModifierResult Response :=
  let d := JsonPlaceholderModifier.requester.delete t ("/posts/" ++ post_id)
  let result : Except PyError (Option Response) :=
    match d.run.outcome with
    | .ok r => .ok (some r)
    | .raised (.httpError _ _) => .ok none
    | .raised e => .error e
    | .noneResult => .ok none
  (result, d.issued)

/-! ## Concrete fixtures used to instantiate the theorems -/

/-- The full URL of `GET /posts/{post_number}` as issued by the modifier. -/
def postsUrl (post_number : String) : String :=
  JsonPlaceholderModifier.requester.base_url ++ ("/posts/" ++ post_number)

/-- An operation that raises a transport error on every invocation. -/
def alwaysConnFail : Nat → Except PyError Nat := fun _ => .error .connectionError

/-- An operation that raises a transport error on its first two invocations
and then succeeds with 7. -/
def failTwiceThenOk : Nat → Except PyError Nat :=
  fun i => if i < 2 then .error .connectionError else .ok 7

/-- An operation that raises a `ValueError` on every invocation. -/
def alwaysValueError : Nat → Except PyError Nat := fun _ => .error (.other "ValueError")

/-- A retry configuration that only treats `requests.HTTPError` as retryable. -/
def httpOnlyConfig : RetryConfig :=
  { retryable := PyError.isHttpError, total_tries := 5, initial_wait := 1/2, backoff_factor := 2 }

/-- A retry configuration whose backoff factor shrinks the delay. -/
def halvingConfig : RetryConfig :=
  { retryable := fun _ => true, total_tries := 2, initial_wait := 1, backoff_factor := 1/2 }

/-- A sample post body as served by the demo API. -/
def samplePost : PyDict :=
  [("userId", .num 1), ("id", .num 1), ("title", .str "test_title"), ("body", .str "test_body")]

/-- A transport that always answers 200 with `samplePost`. -/
def okTransport : Transport := ⟨fun _ _ _ _ _ => .ok ⟨200, "OK", [], .obj samplePost⟩⟩

/-- A transport that always answers 404. -/
def notFoundTransport : Transport := ⟨fun _ _ _ _ _ => .ok ⟨404, "Not Found", [], .jnull⟩⟩

/-- A transport that always raises a connection error. -/
def downTransport : Transport := ⟨fun _ _ _ _ _ => .error .connectionError⟩

/-! ## Lemmas about the retry loop -/

theorem geomList_length (b : ℚ) : ∀ (k : Nat) (d : ℚ), (geomList d b k).length = k := by
  intro k
  induction k with
  | zero => intro d; rfl
  | succ m ih => intro d; simp [geomList, ih (d * b)]

theorem geomList_get (b : ℚ) :
    ∀ (k j : Nat) (d : ℚ), j < k → (geomList d b k).get? j = some (d * b ^ j) := by
  intro k
  induction k with
  | zero => intro j d hj; omega
  | succ m ih =>
    intro j d hj
    cases j with
    | zero => simp [geomList]
    | succ i =>
      have := ih i (d * b) (by omega)
      simp only [geomList, List.get?_cons_succ, this]
      congr 1
      ring

theorem geomList_head (b : ℚ) (k : Nat) (d : ℚ) : (geomList d b (k + 1)).head? = some d := rfl

theorem geomList_chain (b : ℚ) (hb : 1 ≤ b) :
    ∀ (k : Nat) (d : ℚ), 0 ≤ d → List.Chain' (· ≤ ·) (geomList d b k) := by
  intro k
  induction k with
  | zero => intro d _; exact List.chain'_nil
  | succ m ih =>
    intro d hd
    cases m with
    | zero => simp [geomList]
    | succ l =>
      rw [geomList]
      refine List.chain'_cons'.mpr ⟨?_, ih (d * b) (mul_nonneg hd (le_trans zero_le_one hb))⟩
      intro y hy
      rw [geomList_head] at hy
      cases hy
      exact le_mul_of_one_le_right hd hb

/-- A run whose every attempt raises a qualifying error: the loop at counter
`n + 1` raises the error of its last attempt after exactly `n + 1` calls,
sleeping the `n` geometrically growing delays. -/
theorem retryLoop_all_fail {α : Type} (q : PyError → Bool) (f : Nat → Except PyError α)
    (b : ℚ) (errs : Nat → PyError)
    (hf : ∀ i, f i = .error (errs i)) (hq : ∀ i, q (errs i) = true) :
    ∀ (n idx : Nat) (delay : ℚ),
      retryLoop q f b idx (n + 1) delay =
        ⟨.raised (errs (idx + n)), n + 1, geomList delay b n⟩ := by
  intro n
  induction n with
  | zero => intro idx delay; simp [retryLoop, hf idx, hq idx, geomList]
  | succ m ih =>
    intro idx delay
    have hstep : retryLoop q f b idx (m + 1 + 1) delay =
        ⟨(retryLoop q f b (idx + 1) (m + 1) (delay * b)).outcome,
         (retryLoop q f b (idx + 1) (m + 1) (delay * b)).calls + 1,
         delay :: (retryLoop q f b (idx + 1) (m + 1) (delay * b)).sleeps⟩ := by
      rw [retryLoop, hf idx]
      simp [hq idx]
    rw [hstep, ih (idx + 1) (delay * b), show idx + 1 + m = idx + (m + 1) by omega]
    simp [geomList]

/-- A run with `m` qualifying failures followed by a success: starting at a
counter strictly above `m`, the loop returns the successful value after
`m + 1` calls, sleeping the `m` geometrically growing delays. -/
theorem retryLoop_prefix_ok {α : Type} (q : PyError → Bool) (f : Nat → Except PyError α)
    (b : ℚ) (errs : Nat → PyError) (a : α) :
    ∀ (m idx n : Nat) (delay : ℚ),
      (∀ i, i < m → f (idx + i) = .error (errs (idx + i))) →
      (∀ i, i < m → q (errs (idx + i)) = true) →
      f (idx + m) = .ok a → m < n →
      retryLoop q f b idx n delay = ⟨.ok a, m + 1, geomList delay b m⟩ := by
  intro m
  induction m with
  | zero =>
    intro idx n delay _ _ hsucc hn
    obtain ⟨n', rfl⟩ : ∃ n', n = n' + 1 := ⟨n - 1, by omega⟩
    simp only [Nat.add_zero] at hsucc
    simp [retryLoop, hsucc, geomList]
  | succ m ih =>
    intro idx n delay hf hq hsucc hn
    obtain ⟨n', rfl⟩ : ∃ n', n = n' + 1 := ⟨n - 1, by omega⟩
    have hf0 := hf 0 (Nat.succ_pos m)
    have hq0 := hq 0 (Nat.succ_pos m)
    simp only [Nat.add_zero] at hf0 hq0
    have hrest := ih (idx + 1) n' (delay * b)
      (fun i hi => by rw [show idx + 1 + i = idx + (i + 1) by omega]; exact hf (i + 1) (by omega))
      (fun i hi => by rw [show idx + 1 + i = idx + (i + 1) by omega]; exact hq (i + 1) (by omega))
      (by rw [show idx + 1 + m = idx + (m + 1) by omega]; exact hsucc)
      (by omega)
    have hn' : n' ≠ 0 := by omega
    have hstep : retryLoop q f b idx (n' + 1) delay =
        ⟨(retryLoop q f b (idx + 1) n' (delay * b)).outcome,
         (retryLoop q f b (idx + 1) n' (delay * b)).calls + 1,
         delay :: (retryLoop q f b (idx + 1) n' (delay * b)).sleeps⟩ := by
      rw [retryLoop, hf0]
      simp [hq0, hn']
    rw [hstep, hrest]
    simp [geomList]

/-- A run with `m` qualifying failures followed by a non-qualifying error:
starting at a counter strictly above `m`, the loop propagates that error at
once after `m + 1` calls, with no further sleep. -/
theorem retryLoop_prefix_raise {α : Type} (q : PyError → Bool) (f : Nat → Except PyError α)
    (b : ℚ) (errs : Nat → PyError) (e : PyError) (hqe : q e = false) :
    ∀ (m idx n : Nat) (delay : ℚ),
      (∀ i, i < m → f (idx + i) = .error (errs (idx + i))) →
      (∀ i, i < m → q (errs (idx + i)) = true) →
      f (idx + m) = .error e → m < n →
      retryLoop q f b idx n delay = ⟨.raised e, m + 1, geomList delay b m⟩ := by
  intro m
  induction m with
  | zero =>
    intro idx n delay _ _ herr hn
    obtain ⟨n', rfl⟩ : ∃ n', n = n' + 1 := ⟨n - 1, by omega⟩
    simp only [Nat.add_zero] at herr
    simp [retryLoop, herr, hqe, geomList]
  | succ m ih =>
    intro idx n delay hf hq herr hn
    obtain ⟨n', rfl⟩ : ∃ n', n = n' + 1 := ⟨n - 1, by omega⟩
    have hf0 := hf 0 (Nat.succ_pos m)
    have hq0 := hq 0 (Nat.succ_pos m)
    simp only [Nat.add_zero] at hf0 hq0
    have hrest := ih (idx + 1) n' (delay * b)
      (fun i hi => by rw [show idx + 1 + i = idx + (i + 1) by omega]; exact hf (i + 1) (by omega))
      (fun i hi => by rw [show idx + 1 + i = idx + (i + 1) by omega]; exact hq (i + 1) (by omega))
      (by rw [show idx + 1 + m = idx + (m + 1) by omega]; exact herr)
      (by omega)
    have hn' : n' ≠ 0 := by omega
    have hstep : retryLoop q f b idx (n' + 1) delay =
        ⟨(retryLoop q f b (idx + 1) n' (delay * b)).outcome,
         (retryLoop q f b (idx + 1) n' (delay * b)).calls + 1,
         delay :: (retryLoop q f b (idx + 1) n' (delay * b)).sleeps⟩ := by
      rw [retryLoop, hf0]
      simp [hq0, hn']
    rw [hstep, hrest]
    simp [geomList]

/-- The loop never invokes the wrapped function more often than its counter. -/
theorem retryLoop_calls_le {α : Type} (q : PyError → Bool) (f : Nat → Except PyError α)
    (b : ℚ) : ∀ (n idx : Nat) (delay : ℚ), (retryLoop q f b idx n delay).calls ≤ n := by
  intro n
  induction n with
  | zero => intro idx delay; simp [retryLoop]
  | succ m ih =>
    intro idx delay
    rw [retryLoop]
    cases f idx with
    | ok a => simp
    | error e =>
      by_cases hq : q e
      · by_cases hm : m = 0
        · simp [hq, hm]
        · simpa [hq, hm] using ih (idx + 1) (delay * b)
      · simp [hq]

/-- At counter 1, the loop makes exactly one call whatever the attempt does. -/
theorem retryLoop_one_call {α : Type} (q : PyError → Bool) (f : Nat → Except PyError α)
    (b : ℚ) (idx : Nat) (delay : ℚ) : (retryLoop q f b idx 1 delay).calls = 1 := by
  rw [retryLoop]
  cases f idx with
  | ok a => rfl
  | error e =>
    by_cases hq : q e
    · simp [hq]
    · simp [hq]

/-! ## Lemmas about the `(retries, delay)` state trace -/

theorem loopStates_head {α : Type} (q : PyError → Bool) (f : Nat → Except PyError α) (b : ℚ)
    (fuel idx : Nat) (retries : Int) (delay : ℚ) :
    (loopStates q f b idx fuel retries delay).head? = some (retries, delay) := by
  cases fuel with
  | zero => rfl
  | succ m =>
    rw [loopStates]
    split
    · rfl
    · rfl

theorem loopStates_guard_stop {α : Type} (q : PyError → Bool) (f : Nat → Except PyError α)
    (b : ℚ) (m idx : Nat) (retries : Int) (delay : ℚ) (hle : retries ≤ 0) :
    loopStates q f b idx (m + 1) retries delay = [(retries, delay)] := by
  rw [loopStates, if_pos hle]

theorem loopStates_step_ok {α : Type} (q : PyError → Bool) (f : Nat → Except PyError α)
    (b : ℚ) (a : α) (m idx : Nat) (retries : Int) (delay : ℚ)
    (hfi : f idx = .ok a) (hpos : ¬ retries ≤ 0) :
    loopStates q f b idx (m + 1) retries delay = [(retries, delay)] := by
  rw [loopStates, if_neg hpos, hfi]

theorem loopStates_step_nonqual {α : Type} (q : PyError → Bool) (f : Nat → Except PyError α)
    (b : ℚ) (e : PyError) (m idx : Nat) (retries : Int) (delay : ℚ)
    (hfi : f idx = .error e) (hq : q e = false) (hpos : ¬ retries ≤ 0) :
    loopStates q f b idx (m + 1) retries delay = [(retries, delay)] := by
  rw [loopStates, if_neg hpos, hfi]
  simp [hq]

theorem loopStates_step_last {α : Type} (q : PyError → Bool) (f : Nat → Except PyError α)
    (b : ℚ) (e : PyError) (m idx : Nat) (delay : ℚ)
    (hfi : f idx = .error e) (hq : q e = true) :
    loopStates q f b idx (m + 1) 1 delay = [(1, delay)] := by
  rw [loopStates, if_neg (by omega), hfi]
  simp [hq]

theorem loopStates_step_cont {α : Type} (q : PyError → Bool) (f : Nat → Except PyError α)
    (b : ℚ) (e : PyError) (m idx : Nat) (retries : Int) (delay : ℚ)
    (hfi : f idx = .error e) (hq : q e = true) (hpos : ¬ retries ≤ 0) (h1 : retries ≠ 1) :
    loopStates q f b idx (m + 1) retries delay =
      (retries, delay) :: loopStates q f b (idx + 1) m (retries - 1) (delay * b) := by
  rw [loopStates, if_neg hpos, hfi]
  simp [hq, h1]

/-- On reachable calls the counter argument equals the fuel; every counter
value in the trace is then non-negative. -/
theorem loopStates_nonneg {α : Type} (q : PyError → Bool) (f : Nat → Except PyError α) (b : ℚ) :
    ∀ (fuel idx : Nat) (delay : ℚ) (p : Int × ℚ),
      p ∈ loopStates q f b idx fuel (fuel : Int) delay → 0 ≤ p.1 := by
  intro fuel
  induction fuel with
  | zero =>
    intro idx delay p hp
    rw [loopStates] at hp
    rcases List.mem_singleton.mp hp with rfl
    simp
  | succ m ih =>
    intro idx delay p hp
    have hpos : ¬ ((m + 1 : Nat) : Int) ≤ 0 := by omega
    cases hfi : f idx with
    | ok a =>
      rw [loopStates_step_ok q f b a m idx _ delay hfi hpos] at hp
      rcases List.mem_singleton.mp hp with rfl
      omega
    | error e =>
      by_cases hq : q e
      · by_cases h1 : ((m + 1 : Nat) : Int) = 1
        · rw [h1, loopStates_step_last q f b e m idx delay hfi hq] at hp
          rcases List.mem_singleton.mp hp with rfl
          omega
        · rw [loopStates_step_cont q f b e m idx _ delay hfi hq hpos h1,
            show ((m + 1 : Nat) : Int) - 1 = (m : Int) by omega] at hp
          rcases List.mem_cons.mp hp with rfl | h
          · omega
          · exact ih (idx + 1) (delay * b) p h
      · rw [loopStates_step_nonqual q f b e m idx _ delay hfi (by simpa using hq) hpos] at hp
        rcases List.mem_singleton.mp hp with rfl
        omega

/-- On reachable calls the counter in the trace strictly decreases from each
loop iteration to the next. -/
theorem loopStates_counter_strict {α : Type} (q : PyError → Bool) (f : Nat → Except PyError α)
    (b : ℚ) :
    ∀ (fuel idx : Nat) (delay : ℚ),
      List.Chain' (fun p p' => p'.1 < p.1) (loopStates q f b idx fuel (fuel : Int) delay) := by
  intro fuel
  induction fuel with
  | zero =>
    intro idx delay
    rw [loopStates]
    exact List.chain'_singleton _
  | succ m ih =>
    intro idx delay
    have hpos : ¬ ((m + 1 : Nat) : Int) ≤ 0 := by omega
    cases hfi : f idx with
    | ok a =>
      rw [loopStates_step_ok q f b a m idx _ delay hfi hpos]
      exact List.chain'_singleton _
    | error e =>
      by_cases hq : q e
      · by_cases h1 : ((m + 1 : Nat) : Int) = 1
        · rw [h1, loopStates_step_last q f b e m idx delay hfi hq]
          exact List.chain'_singleton _
        · rw [loopStates_step_cont q f b e m idx _ delay hfi hq hpos h1,
            show ((m + 1 : Nat) : Int) - 1 = (m : Int) by omega]
          refine List.chain'_cons'.mpr ⟨?_, ih (idx + 1) (delay * b)⟩
          intro y hy
          rw [loopStates_head] at hy
          simp only [Option.mem_def, Option.some.injEq] at hy
          rw [← hy]
          simp only
          omega
      · rw [loopStates_step_nonqual q f b e m idx _ delay hfi (by simpa using hq) hpos]
        exact List.chain'_singleton _

/-- With a non-negative initial delay and a backoff factor of at least one,
the delay in the trace never decreases from one loop iteration to the next. -/
theorem loopStates_delay_mono {α : Type} (q : PyError → Bool) (f : Nat → Except PyError α)
    (b : ℚ) (hb : 1 ≤ b) :
    ∀ (fuel idx : Nat) (delay : ℚ), 0 ≤ delay →
      ∀ (retries : Int),
        List.Chain' (fun p p' => p.2 ≤ p'.2) (loopStates q f b idx fuel retries delay) := by
  intro fuel
  induction fuel with
  | zero =>
    intro idx delay _ retries
    rw [loopStates]
    exact List.chain'_singleton _
  | succ m ih =>
    intro idx delay hd retries
    by_cases hle : retries ≤ 0
    · rw [loopStates_guard_stop q f b m idx retries delay hle]
      exact List.chain'_singleton _
    · cases hfi : f idx with
      | ok a =>
        rw [loopStates_step_ok q f b a m idx retries delay hfi hle]
        exact List.chain'_singleton _
      | error e =>
        by_cases hq : q e
        · by_cases h1 : retries = 1
          · rw [h1, loopStates_step_last q f b e m idx delay hfi hq]
            exact List.chain'_singleton _
          · rw [loopStates_step_cont q f b e m idx retries delay hfi hq hle h1]
            refine List.chain'_cons'.mpr
              ⟨?_, ih (idx + 1) (delay * b) (mul_nonneg hd (le_trans zero_le_one hb)) _⟩
            intro y hy
            rw [loopStates_head] at hy
            simp only [Option.mem_def, Option.some.injEq] at hy
            rw [← hy]
            exact le_mul_of_one_le_right hd hb
        · rw [loopStates_step_nonqual q f b e m idx retries delay hfi (by simpa using hq) hle]
          exact List.chain'_singleton _

/-! ## C1 -/

/-- C1: when every invocation of the wrapped operation raises an error in the
configured retryable exception set, the retry-wrapped operation raises the
error of the last attempt after exactly `total_tries` invocations of the
underlying operation — no more, no fewer — for every positive `total_tries`
(a non-positive budget never enters the loop; see the `total_tries ≤ 0`
theorem). -/
theorem retry_exhausts_then_reraises {α : Type} (cfg : RetryConfig)
    (f : Nat → Except PyError α) (errs : Nat → PyError)
    (hf : ∀ i, f i = .error (errs i)) (hq : ∀ i, cfg.retryable (errs i) = true)
    (hpos : 1 ≤ cfg.total_tries) :
    (func_with_retry cfg f).outcome = .raised (errs (cfg.total_tries.toNat - 1)) ∧
    (func_with_retry cfg f).calls = cfg.total_tries.toNat := by
  obtain ⟨n, hn⟩ : ∃ n, cfg.total_tries.toNat = n + 1 :=
    ⟨cfg.total_tries.toNat - 1, by omega⟩
  unfold func_with_retry
  rw [hn, retryLoop_all_fail cfg.retryable f cfg.backoff_factor errs hf hq n 0 cfg.initial_wait]
  constructor
  · simp
  · rfl

/-- Witness for C1: with the default five tries and an operation failing every
time with a connection error, the wrapper raises that error after five calls. -/
theorem retry_exhausts_then_reraises_witness :
    (func_with_retry (retryDefaults fun _ => true) alwaysConnFail).outcome =
        .raised PyError.connectionError ∧
    (func_with_retry (retryDefaults fun _ => true) alwaysConnFail).calls = 5 := by
  have h := retry_exhausts_then_reraises (retryDefaults fun _ => true) alwaysConnFail
    (fun _ => .connectionError) (fun _ => rfl) (fun _ => rfl) (by decide)
  exact ⟨h.1, h.2⟩

/-! ## C10 -/

/-- C10: a retry configuration with `total_tries ≤ 0` makes the wrapped
function return `None` at once — the loop guard fails, so the underlying
operation is never invoked, nothing is slept, and nothing is raised. -/
theorem retry_nonpositive_tries_returns_none {α : Type} (cfg : RetryConfig)
    (f : Nat → Except PyError α) (hle : cfg.total_tries ≤ 0) :
    func_with_retry cfg f = ⟨.noneResult, 0, []⟩ := by
  unfold func_with_retry
  rw [show cfg.total_tries.toNat = 0 by omega]
  rfl

/-- Witness for C10 at `total_tries = 0`. -/
theorem retry_nonpositive_tries_returns_none_witness :
    func_with_retry ⟨fun _ => true, 0, 1/2, 2⟩ alwaysConnFail = ⟨.noneResult, 0, []⟩ :=
  retry_nonpositive_tries_returns_none _ alwaysConnFail (by decide)

/-! ## C2 -/

/-- C2: for `1 ≤ N ≤ total_tries`, qualifying failures on attempts `1..N-1`
followed by success on attempt `N` give the successful result after exactly
`N` invocations with exactly `N - 1` sleeps, the `k`-th slept delay being
`initial_wait * backoff_factor ^ k` (first delay `initial_wait`, each
subsequent one the previous times the backoff factor); when the initial wait
is non-negative and the backoff factor at least one — as in the defaults —
each delay is at least the previous. `N = 1` gives zero sleeps. -/
theorem retry_success_after_failures {α : Type} (cfg : RetryConfig)
    (f : Nat → Except PyError α) (errs : Nat → PyError) (a : α) (N : Nat)
    (hN1 : 1 ≤ N) (hN2 : (N : Int) ≤ cfg.total_tries)
    (hfail : ∀ i, i < N - 1 → f i = .error (errs i))
    (hqual : ∀ i, i < N - 1 → cfg.retryable (errs i) = true)
    (hsucc : f (N - 1) = .ok a) :
    (func_with_retry cfg f).outcome = .ok a ∧
    (func_with_retry cfg f).calls = N ∧
    (func_with_retry cfg f).sleeps.length = N - 1 ∧
    (∀ k, k < N - 1 → (func_with_retry cfg f).sleeps.get? k =
        some (cfg.initial_wait * cfg.backoff_factor ^ k)) ∧
    (0 ≤ cfg.initial_wait → 1 ≤ cfg.backoff_factor →
      List.Chain' (· ≤ ·) (func_with_retry cfg f).sleeps) := by
  have hrun : func_with_retry cfg f =
      ⟨.ok a, (N - 1) + 1, geomList cfg.initial_wait cfg.backoff_factor (N - 1)⟩ := by
    unfold func_with_retry
    exact retryLoop_prefix_ok cfg.retryable f cfg.backoff_factor errs a (N - 1) 0
      cfg.total_tries.toNat cfg.initial_wait
      (fun i hi => by simpa using hfail i hi)
      (fun i hi => by simpa using hqual i hi)
      (by simpa using hsucc)
      (by omega)
  rw [hrun]
  refine ⟨rfl, by simp; omega, by simp [geomList_length], ?_, ?_⟩
  · intro k hk
    exact geomList_get _ _ _ _ hk
  · intro hw hb
    exact geomList_chain _ hb _ _ hw

/-- Witness for C2: defaults, two connection errors then success with 7:
three calls, two sleeps `[0.5, 1]`, monotone. -/
theorem retry_success_after_failures_witness :
    (func_with_retry (retryDefaults fun _ => true) failTwiceThenOk).outcome = .ok 7 ∧
    (func_with_retry (retryDefaults fun _ => true) failTwiceThenOk).calls = 3 ∧
    (func_with_retry (retryDefaults fun _ => true) failTwiceThenOk).sleeps.length = 2 ∧
    (func_with_retry (retryDefaults fun _ => true) failTwiceThenOk).sleeps.get? 0 =
      some (1/2) ∧
    (func_with_retry (retryDefaults fun _ => true) failTwiceThenOk).sleeps.get? 1 = some 1 ∧
    List.Chain' (· ≤ ·) (func_with_retry (retryDefaults fun _ => true) failTwiceThenOk).sleeps := by
  have h := retry_success_after_failures (retryDefaults fun _ => true) failTwiceThenOk
    (fun _ => .connectionError) 7 3 (by omega) (by decide)
    (fun i hi => by unfold failTwiceThenOk; rw [if_pos (by omega)])
    (fun _ _ => rfl)
    rfl
  refine ⟨h.1, h.2.1, h.2.2.1, ?_, ?_,
    h.2.2.2.2 (by norm_num [retryDefaults]) (by norm_num [retryDefaults])⟩
  · have := h.2.2.2.1 0 (by omega)
    simpa [retryDefaults] using this
  · have := h.2.2.2.1 1 (by omega)
    rw [this]
    norm_num [retryDefaults]

/-! ## C7 -/

/-- C7: an error outside the configured retryable exception set propagates at
once: after `m` qualifying failures, a non-qualifying error on attempt
`m + 1` is raised to the caller with no further invocation and no further
sleep (in particular, on the first attempt: one call, zero sleeps). -/
theorem retry_nonqualifying_propagates {α : Type} (cfg : RetryConfig)
    (f : Nat → Except PyError α) (errs : Nat → PyError) (e : PyError) (m : Nat)
    (hfail : ∀ i, i < m → f i = .error (errs i))
    (hqual : ∀ i, i < m → cfg.retryable (errs i) = true)
    (herr : f m = .error e) (hnq : cfg.retryable e = false)
    (hm : (m : Int) < cfg.total_tries) :
    (func_with_retry cfg f).outcome = .raised e ∧
    (func_with_retry cfg f).calls = m + 1 ∧
    (func_with_retry cfg f).sleeps.length = m := by
  have hrun := retryLoop_prefix_raise cfg.retryable f cfg.backoff_factor errs e hnq m 0
    cfg.total_tries.toNat cfg.initial_wait
    (fun i hi => by simpa using hfail i hi)
    (fun i hi => by simpa using hqual i hi)
    (by simpa using herr)
    (by omega)
  unfold func_with_retry
  rw [hrun]
  exact ⟨rfl, rfl, by simp [geomList_length]⟩

/-- Witness for C7: retrying only on HTTP errors, a `ValueError` on the first
attempt propagates immediately: one call, no sleep. -/
theorem retry_nonqualifying_propagates_witness :
    (func_with_retry httpOnlyConfig alwaysValueError).outcome =
      .raised (.other "ValueError") ∧
    (func_with_retry httpOnlyConfig alwaysValueError).calls = 1 ∧
    (func_with_retry httpOnlyConfig alwaysValueError).sleeps.length = 0 := by
  have h := retry_nonqualifying_propagates httpOnlyConfig alwaysValueError
    (fun _ => .connectionError) (.other "ValueError") 0
    (fun i hi => absurd hi (Nat.not_lt_zero i))
    (fun i hi => absurd hi (Nat.not_lt_zero i))
    rfl rfl (by decide)
  exact ⟨h.1, h.2.1, h.2.2⟩

/-! ## C8 -/

/-- Counterexample to C8 as stated: the claim quantifies over every
configuration, but with `backoff_factor = 1/2` (and failures on both
attempts) the state trace is `[(2, 1), (1, 1/2)]` — the delay value strictly
decreases from the first wait to the next, so it is not monotonically
non-decreasing. -/
theorem retry_delay_trace_not_monotone :
    func_with_retry_states halvingConfig alwaysConnFail = [(2, 1), (1, 1 * (1/2))] ∧
    ¬ List.Chain' (fun p p' : Int × ℚ => p.2 ≤ p'.2)
        (func_with_retry_states halvingConfig alwaysConnFail) := by
  have h2 : loopStates (fun _ => true) alwaysConnFail (1/2) 1 1 1 (1 * (1/2)) =
      [(1, 1 * (1/2))] :=
    loopStates_step_last (fun _ => true) alwaysConnFail (1/2) PyError.connectionError 0 1
      (1 * (1/2)) rfl rfl
  have hstates : func_with_retry_states halvingConfig alwaysConnFail =
      [(2, 1), (1, 1 * (1/2))] := by
    calc func_with_retry_states halvingConfig alwaysConnFail
        = loopStates (fun _ => true) alwaysConnFail (1/2) 0 (1 + 1) 2 1 := rfl
      _ = (2, 1) :: loopStates (fun _ => true) alwaysConnFail (1/2) 1 1 (2 - 1) (1 * (1/2)) :=
          loopStates_step_cont (fun _ => true) alwaysConnFail (1/2) PyError.connectionError
            1 0 2 1 rfl rfl (by norm_num) (by norm_num)
      _ = (2, 1) :: loopStates (fun _ => true) alwaysConnFail (1/2) 1 1 1 (1 * (1/2)) := by
          norm_num
      _ = [(2, 1), (1, 1 * (1/2))] := by rw [h2]
  refine ⟨hstates, ?_⟩
  rw [hstates]
  intro hch
  have h := (List.chain'_cons.mp hch).1
  norm_num at h

/-- C8 amended: within one retry sequence, for every configuration with
`total_tries ≥ 0`, `initial_wait ≥ 0` and `backoff_factor ≥ 1` (as in the
decorator defaults and in every configuration this program uses), the
remaining-attempts counter is non-negative and strictly decreasing across
loop iterations, and the delay value is monotonically non-decreasing from
one iteration to the next. -/
theorem retry_state_trace_invariants {α : Type} (cfg : RetryConfig)
    (f : Nat → Except PyError α)
    (ht : 0 ≤ cfg.total_tries) (hw : 0 ≤ cfg.initial_wait) (hb : 1 ≤ cfg.backoff_factor) :
    (∀ p ∈ func_with_retry_states cfg f, 0 ≤ p.1) ∧
    List.Chain' (fun p p' => p'.1 < p.1) (func_with_retry_states cfg f) ∧
    List.Chain' (fun p p' => p.2 ≤ p'.2) (func_with_retry_states cfg f) := by
  have heq : func_with_retry_states cfg f =
      loopStates cfg.retryable f cfg.backoff_factor 0 cfg.total_tries.toNat
        ((cfg.total_tries.toNat : Nat) : Int) cfg.initial_wait := by
    unfold func_with_retry_states
    rw [Int.toNat_of_nonneg ht]
  rw [heq]
  exact ⟨fun p hp => loopStates_nonneg cfg.retryable f cfg.backoff_factor _ _ _ p hp,
    loopStates_counter_strict cfg.retryable f cfg.backoff_factor _ _ _,
    loopStates_delay_mono cfg.retryable f cfg.backoff_factor hb _ _ _ hw _⟩

/-- Witness for the amended C8 at the decorator defaults with an operation
failing on every attempt. -/
theorem retry_state_trace_invariants_witness :
    (∀ p ∈ func_with_retry_states (retryDefaults fun _ => true) alwaysConnFail, 0 ≤ p.1) ∧
    List.Chain' (fun p p' => p'.1 < p.1)
      (func_with_retry_states (retryDefaults fun _ => true) alwaysConnFail) ∧
    List.Chain' (fun p p' => p.2 ≤ p'.2)
      (func_with_retry_states (retryDefaults fun _ => true) alwaysConnFail) :=
  retry_state_trace_invariants _ alwaysConnFail (by decide)
    (by norm_num [retryDefaults]) (by norm_num [retryDefaults])

/-! ## Dispatcher-level helper lemmas -/

theorem raise_for_status_ok (r : Response) (h : r.status_code < 400) :
    raise_for_status r = .ok r := by
  unfold raise_for_status
  rw [if_neg (by omega : ¬(400 ≤ r.status_code ∧ r.status_code < 600))]

theorem raise_for_status_error (r : Response) (h4 : 400 ≤ r.status_code)
    (h6 : r.status_code < 600) :
    raise_for_status r = .error (.httpError r.status_code r.reason) := by
  unfold raise_for_status
  rw [if_pos ⟨h4, h6⟩]

theorem requestVerb_run_eq (api : RequestApi) (t : Transport) (v : Verb) (path : String)
    (payload : Option PyDict) (headers : Option Headers) :
    (api.requestVerb t v path payload headers).run =
      retryLoop (fun _ => true) (requestAttempt t v (api.base_url ++ path) payload headers)
        2 0 2 (1/2) := rfl

theorem requestVerb_issued_eq (api : RequestApi) (t : Transport) (v : Verb) (path : String)
    (payload : Option PyDict) (headers : Option Headers) :
    (api.requestVerb t v path payload headers).issued =
      List.replicate (api.requestVerb t v path payload headers).run.calls
        (v, api.base_url ++ path) := rfl

theorem requestVerb_calls_le (api : RequestApi) (t : Transport) (v : Verb) (path : String)
    (payload : Option PyDict) (headers : Option Headers) :
    (api.requestVerb t v path payload headers).run.calls ≤ 2 := by
  rw [requestVerb_run_eq]
  exact retryLoop_calls_le _ _ _ 2 0 (1/2)

theorem retryLoop_two_calls_of_first_error {α : Type} (q : PyError → Bool)
    (f : Nat → Except PyError α) (b : ℚ) (e : PyError) (idx : Nat) (delay : ℚ)
    (hfi : f idx = .error e) (hq : q e = true) :
    (retryLoop q f b idx (0 + 1 + 1) delay).calls = 2 := by
  rw [retryLoop, hfi]
  simp only [hq, if_true]
  simp only [Nat.zero_add, Nat.one_ne_zero, if_false]
  simp [retryLoop_one_call]

theorem requestVerb_calls_first_error (api : RequestApi) (t : Transport) (v : Verb)
    (path : String) (payload : Option PyDict) (headers : Option Headers) (e : PyError)
    (h0 : requestAttempt t v (api.base_url ++ path) payload headers 0 = .error e) :
    (api.requestVerb t v path payload headers).run.calls = 2 := by
  have h := retryLoop_two_calls_of_first_error (fun _ => true)
    (requestAttempt t v (api.base_url ++ path) payload headers) 2 e 0 (1/2) h0 rfl
  rw [requestVerb_run_eq]
  simpa using h

theorem requestVerb_run_first_ok (api : RequestApi) (t : Transport) (v : Verb) (path : String)
    (payload : Option PyDict) (headers : Option Headers) (r : Response)
    (hresp : t.respond v (api.base_url ++ path) payload headers 0 = .ok r)
    (hst : r.status_code < 400) :
    (api.requestVerb t v path payload headers).run = ⟨.ok r, 1, []⟩ := by
  rw [requestVerb_run_eq]
  have h0 : requestAttempt t v (api.base_url ++ path) payload headers 0 = .ok r := by
    unfold requestAttempt
    rw [hresp]
    exact raise_for_status_ok r hst
  have h := retryLoop_prefix_ok (fun _ => true)
    (requestAttempt t v (api.base_url ++ path) payload headers) 2
    (fun _ => PyError.connectionError) r 0 0 2 (1/2)
    (fun i hi => absurd hi (Nat.not_lt_zero i))
    (fun i hi => absurd hi (Nat.not_lt_zero i))
    (by simpa using h0) (by omega)
  simpa [geomList] using h

theorem geomList_one (d b : ℚ) : geomList d b 1 = [d] := rfl

theorem requestVerb_run_all_error (api : RequestApi) (t : Transport) (v : Verb) (path : String)
    (payload : Option PyDict) (headers : Option Headers) (errs : Nat → PyError)
    (hfail : ∀ i, requestAttempt t v (api.base_url ++ path) payload headers i =
      .error (errs i)) :
    (api.requestVerb t v path payload headers).run = ⟨.raised (errs 1), 2, [1/2]⟩ := by
  rw [requestVerb_run_eq]
  have h := retryLoop_all_fail (fun _ => true)
    (requestAttempt t v (api.base_url ++ path) payload headers) 2 errs hfail (fun _ => rfl)
    1 0 (1/2)
  simpa [geomList_one] using h

/-! ## C6 -/

/-- C6: every `RequestApi` operation is wrapped with a retry budget of 2
total attempts over the generic `Exception` class (every error qualifies);
therefore the underlying transport is invoked at most twice per call, and a
failure of the first attempt leads to exactly one retry (two calls in all). -/
theorem requestApi_retry_budget :
    requestApiRetryConfig.total_tries = 2 ∧
    (∀ e, requestApiRetryConfig.retryable e = true) ∧
    (∀ (api : RequestApi) (t : Transport) (path : String) (payload : Option PyDict)
        (headers : Option Headers),
      (api.get t path payload headers).run.calls ≤ 2 ∧
      (api.post t path payload headers).run.calls ≤ 2 ∧
      (api.put t path payload headers).run.calls ≤ 2 ∧
      (api.patch t path payload headers).run.calls ≤ 2 ∧
      (api.delete t path payload headers).run.calls ≤ 2) ∧
    (∀ (api : RequestApi) (t : Transport) (v : Verb) (path : String) (payload : Option PyDict)
        (headers : Option Headers) (e : PyError),
      requestAttempt t v (api.base_url ++ path) payload headers 0 = .error e →
      (api.requestVerb t v path payload headers).run.calls = 2) := by
  refine ⟨rfl, fun _ => rfl, ?_, ?_⟩
  · intro api t path payload headers
    exact ⟨requestVerb_calls_le api t .GET path payload headers,
      requestVerb_calls_le api t .POST path payload headers,
      requestVerb_calls_le api t .PUT path payload headers,
      requestVerb_calls_le api t .PATCH path payload headers,
      requestVerb_calls_le api t .DELETE path payload headers⟩
  · intro api t v path payload headers e h0
    exact requestVerb_calls_first_error api t v path payload headers e h0

/-- Witness for C6: against a dead transport a GET makes exactly two calls;
against a healthy one it stays within the budget. -/
theorem requestApi_retry_budget_witness :
    (JsonPlaceholderModifier.requester.get downTransport "/posts/1" none none).run.calls = 2 ∧
    (JsonPlaceholderModifier.requester.get okTransport "/posts/1" none none).run.calls ≤ 2 := by
  have h := requestApi_retry_budget
  exact ⟨h.2.2.2 JsonPlaceholderModifier.requester downTransport .GET "/posts/1" none none
      .connectionError rfl,
    (h.2.2.1 JsonPlaceholderModifier.requester okTransport "/posts/1" none none).1⟩

/-! ## C5 -/

/-- C5: for every dispatcher operation and transport response: a status code
of at least 400 (and below 600, the range of HTTP statuses) makes the
operation raise `HTTPError` carrying the status code and reason, while a
status below 400 makes the operation return the raw response object
unchanged. -/
theorem requestApi_status_classification (api : RequestApi) (t : Transport) (v : Verb)
    (path : String) (payload : Option PyDict) (headers : Option Headers) :
    (∀ r : Response, t.respond v (api.base_url ++ path) payload headers 0 = .ok r →
      r.status_code < 400 →
      (api.requestVerb t v path payload headers).run.outcome = .ok r ∧
      (api.requestVerb t v path payload headers).run.calls = 1) ∧
    (∀ rs : Nat → Response,
      (∀ i, t.respond v (api.base_url ++ path) payload headers i = .ok (rs i)) →
      (∀ i, 400 ≤ (rs i).status_code ∧ (rs i).status_code < 600) →
      (api.requestVerb t v path payload headers).run.outcome =
        .raised (.httpError (rs 1).status_code (rs 1).reason)) := by
  constructor
  · intro r hresp hst
    rw [requestVerb_run_first_ok api t v path payload headers r hresp hst]
    exact ⟨rfl, rfl⟩
  · intro rs hresp hcode
    have hfail : ∀ i, requestAttempt t v (api.base_url ++ path) payload headers i =
        .error (.httpError (rs i).status_code (rs i).reason) := by
      intro i
      unfold requestAttempt
      rw [hresp i]
      exact raise_for_status_error (rs i) (hcode i).1 (hcode i).2
    rw [requestVerb_run_all_error api t v path payload headers _ hfail]

/-- Witness for C5: a 200 response is returned unchanged; a transport that
always answers 404 makes the operation raise `HTTPError 404`. -/
theorem requestApi_status_classification_witness :
    (JsonPlaceholderModifier.requester.requestVerb okTransport .GET "/posts/1"
        none none).run.outcome = .ok ⟨200, "OK", [], .obj samplePost⟩ ∧
    (JsonPlaceholderModifier.requester.requestVerb notFoundTransport .GET "/posts/1"
        none none).run.outcome = .raised (.httpError 404 "Not Found") := by
  have h1 := (requestApi_status_classification JsonPlaceholderModifier.requester okTransport
    .GET "/posts/1" none none).1 ⟨200, "OK", [], .obj samplePost⟩ rfl (by decide)
  have h2 := (requestApi_status_classification JsonPlaceholderModifier.requester
    notFoundTransport .GET "/posts/1" none none).2
    (fun _ => ⟨404, "Not Found", [], .jnull⟩) (fun _ => rfl)
    (fun _ => (by decide : 400 ≤ 404 ∧ 404 < 600))
  exact ⟨h1.1, h2⟩

/-! ## Domain-layer helper lemmas -/

theorem dictGet_nil (k : String) : dictGet [] k = none := rfl

theorem dictSet_of_not_mem (k : String) (v : JVal) :
    ∀ d : PyDict, dictGet d k = none → dictSet d k v = d ++ [(k, v)] := by
  intro d
  induction d with
  | nil => intro _; rfl
  | cons p rest ih =>
    obtain ⟨k', v'⟩ := p
    intro h
    rw [dictGet] at h
    by_cases hk : k' = k
    · rw [if_pos hk] at h
      exact absurd h (by simp)
    · rw [if_neg hk] at h
      rw [dictSet, if_neg hk, ih h]
      rfl

/-! ## C9 -/

/-- C9: for a post object fetched by the dispatcher, `get_post_field` returns
the value stored under the requested field when the key is present, and when
the key is absent the `KeyError` is caught (and logged) and the method
returns `None` instead of raising to its caller. -/
theorem get_post_field_lookup (t : Transport) (pn field : String) (r : Response) (d : PyDict)
    (hresp : t.respond .GET (postsUrl pn) none none 0 = .ok r)
    (hst : r.status_code < 400) (hbody : r.body = .obj d) :
    (∀ v, dictGet d field = some v →
        (JsonPlaceholderModifier.get_post_field t pn field).1 = .ok (some v)) ∧
    (dictGet d field = none →
        (JsonPlaceholderModifier.get_post_field t pn field).1 = .ok none) := by
  have hrun : (JsonPlaceholderModifier.requester.get t ("/posts/" ++ pn) none none).run =
      ⟨.ok r, 1, []⟩ :=
    requestVerb_run_first_ok JsonPlaceholderModifier.requester t .GET ("/posts/" ++ pn)
      none none r hresp hst
  have houtcome :
      (JsonPlaceholderModifier.requester.get t ("/posts/" ++ pn) none none).run.outcome =
        .ok r := by rw [hrun]
  constructor
  · intro v hv
    simp only [JsonPlaceholderModifier.get_post_field, houtcome, jsonIndex, hbody, hv]
  · intro hnone
    simp only [JsonPlaceholderModifier.get_post_field, houtcome, jsonIndex, hbody, hnone]

/-- Witness for C9: fetching the sample post, `title` is found and `titles`
yields `None`. -/
theorem get_post_field_lookup_witness :
    (JsonPlaceholderModifier.get_post_field okTransport "1" "title").1 =
      .ok (some (.str "test_title")) ∧
    (JsonPlaceholderModifier.get_post_field okTransport "1" "titles").1 = .ok none := by
  have h1 := (get_post_field_lookup okTransport "1" "title" ⟨200, "OK", [], .obj samplePost⟩
    samplePost rfl (by decide) rfl).1 (.str "test_title") rfl
  have h2 := (get_post_field_lookup okTransport "1" "titles" ⟨200, "OK", [], .obj samplePost⟩
    samplePost rfl (by decide) rfl).2 rfl
  exact ⟨h1, h2⟩

/-! ## C3 -/

/-- Counterexample to C3 as stated: inserting at a key the post already has
(`"title"`) overwrites the stored value in place — the result has the same
number of keys as the original (no key added) and the original value under
`"title"` is modified, contradicting "exactly one added key, all original
keys … unmodified". -/
theorem insert_new_field_overwrites_existing_key :
    (JsonPlaceholderModifier.insert_new_field okTransport "1" "title" "changed").1 =
      .ok (some (.obj (dictSet samplePost "title" (.str "changed")))) ∧
    dictGet (dictSet samplePost "title" (.str "changed")) "title" ≠
      dictGet samplePost "title" ∧
    (dictSet samplePost "title" (.str "changed")).length = samplePost.length := by
  refine ⟨rfl, ?_, rfl⟩
  intro h
  have h1 : JVal.str "changed" = JVal.str "test_title" := by
    have hl : dictGet (dictSet samplePost "title" (.str "changed")) "title" =
        some (.str "changed") := rfl
    have hr : dictGet samplePost "title" = some (.str "test_title") := rfl
    rw [hl, hr] at h
    exact Option.some.inj h
  injection h1 with h2
  exact absurd h2 (by decide)

/-- C3 amended: `insert_new_field` issues only GET requests (never a
POST/PUT/PATCH/DELETE write); when the fetch succeeds and the field key is
not already present in the post, it returns the original object with exactly
the one new key-value pair appended (all original keys and values intact);
when the key is already present its value is overwritten in place instead
(see the counterexample); on fetch failure (an `HTTPError` from the
dispatcher) it returns `None`. -/
theorem insert_new_field_spec :
    (∀ (t : Transport) (pn fk fv : String),
      ∀ p ∈ (JsonPlaceholderModifier.insert_new_field t pn fk fv).2, p.1 = Verb.GET) ∧
    (∀ (t : Transport) (pn fk fv : String) (r : Response) (d : PyDict),
      t.respond .GET (postsUrl pn) none none 0 = .ok r →
      r.status_code < 400 → r.body = .obj d → dictGet d fk = none →
      (JsonPlaceholderModifier.insert_new_field t pn fk fv).1 =
        .ok (some (.obj (d ++ [(fk, .str fv)])))) ∧
    (∀ (t : Transport) (pn fk fv : String) (c : Nat) (msg : String),
      (JsonPlaceholderModifier.requester.get t ("/posts/" ++ pn) none none).run.outcome =
        .raised (.httpError c msg) →
      (JsonPlaceholderModifier.insert_new_field t pn fk fv).1 = .ok none) := by
  refine ⟨?_, ?_, ?_⟩
  · intro t pn fk fv p hp
    have hiss : (JsonPlaceholderModifier.insert_new_field t pn fk fv).2 =
        List.replicate
          (JsonPlaceholderModifier.requester.get t ("/posts/" ++ pn) none none).run.calls
          (Verb.GET, JsonPlaceholderModifier.requester.base_url ++ ("/posts/" ++ pn)) := rfl
    rw [hiss] at hp
    rw [List.eq_of_mem_replicate hp]
  · intro t pn fk fv r d hresp hst hbody hfree
    have hrun : (JsonPlaceholderModifier.requester.get t ("/posts/" ++ pn) none none).run =
        ⟨.ok r, 1, []⟩ :=
      requestVerb_run_first_ok JsonPlaceholderModifier.requester t .GET ("/posts/" ++ pn)
        none none r hresp hst
    have houtcome :
        (JsonPlaceholderModifier.requester.get t ("/posts/" ++ pn) none none).run.outcome =
          .ok r := by rw [hrun]
    simp only [JsonPlaceholderModifier.insert_new_field, houtcome, hbody,
      dictSet_of_not_mem fk (.str fv) d hfree]
  · intro t pn fk fv c msg hraised
    simp only [JsonPlaceholderModifier.insert_new_field, hraised]

/-- Witness for the amended C3: appending a fresh key `"time"` to the sample
post, only GETs issued; a 404 fetch yields `None`. -/
theorem insert_new_field_spec_witness :
    (JsonPlaceholderModifier.insert_new_field okTransport "1" "time" "now").1 =
      .ok (some (.obj (samplePost ++ [("time", .str "now")]))) ∧
    (∀ p ∈ (JsonPlaceholderModifier.insert_new_field okTransport "1" "time" "now").2,
      p.1 = Verb.GET) ∧
    (JsonPlaceholderModifier.insert_new_field notFoundTransport "1" "time" "now").1 =
      .ok none := by
  have h := insert_new_field_spec
  exact ⟨h.2.1 okTransport "1" "time" "now" ⟨200, "OK", [], .obj samplePost⟩ samplePost
      rfl (by decide) rfl rfl,
    fun p hp => h.1 okTransport "1" "time" "now" p hp,
    h.2.2 notFoundTransport "1" "time" "now" 404 "Not Found" rfl⟩

/-! ## C4 -/

/-- Counterexample to C4 as stated: the domain methods catch only
`requests.HTTPError`; when the dispatcher exhausts its retries on a
transport-level failure (here a connection error on every attempt),
`get_post_field` re-raises it to its own caller instead of converting it to
a null result. -/
theorem get_post_field_transport_error_escapes :
    (JsonPlaceholderModifier.get_post_field downTransport "1" "title").1 =
      .error .connectionError := rfl

/-- C4 amended: when the dispatcher raises an HTTP-status failure
(`requests.HTTPError`) after retry exhaustion, each of the four domain
operations catches it, logs it, and returns `None`, so no HTTP failure
escapes to the caller; transport/network failures, however, are outside the
`except requests.HTTPError` clauses and propagate (see the counterexample). -/
theorem modifier_catches_http_errors (t : Transport) (c : Nat) (msg : String) :
    (∀ pn field : String,
      (JsonPlaceholderModifier.requester.get t ("/posts/" ++ pn) none none).run.outcome =
        .raised (.httpError c msg) →
      (JsonPlaceholderModifier.get_post_field t pn field).1 = .ok none) ∧
    (∀ pn fk fv : String,
      (JsonPlaceholderModifier.requester.get t ("/posts/" ++ pn) none none).run.outcome =
        .raised (.httpError c msg) →
      (JsonPlaceholderModifier.insert_new_field t pn fk fv).1 = .ok none) ∧
    (∀ body : PyDict,
      (JsonPlaceholderModifier.requester.post t "/posts" (some body)
          (some [("Content-type", "application/json; charset=UTF-8")])).run.outcome =
        .raised (.httpError c msg) →
      (JsonPlaceholderModifier.create_new_post t body).1 = .ok none) ∧
    (∀ pid : String,
      (JsonPlaceholderModifier.requester.delete t ("/posts/" ++ pid) none none).run.outcome =
        .raised (.httpError c msg) →
      (JsonPlaceholderModifier.delete_post t pid).1 = .ok none) := by
  refine ⟨?_, ?_, ?_, ?_⟩
  · intro pn field h
    simp only [JsonPlaceholderModifier.get_post_field, h]
  · intro pn fk fv h
    simp only [JsonPlaceholderModifier.insert_new_field, h]
  · intro body h
    simp only [JsonPlaceholderModifier.create_new_post, h]
  · intro pid h
    simp only [JsonPlaceholderModifier.delete_post, h]

/-- Witness for the amended C4: against a transport that always answers 404,
all four domain operations return `None`. -/
theorem modifier_catches_http_errors_witness :
    (JsonPlaceholderModifier.get_post_field notFoundTransport "1" "title").1 = .ok none ∧
    (JsonPlaceholderModifier.insert_new_field notFoundTransport "1" "k" "v").1 = .ok none ∧
    (JsonPlaceholderModifier.create_new_post notFoundTransport samplePost).1 = .ok none ∧
    (JsonPlaceholderModifier.delete_post notFoundTransport "1").1 = .ok none := by
  have h := modifier_catches_http_errors notFoundTransport 404 "Not Found"
  exact ⟨h.1 "1" "title" rfl, h.2.1 "1" "k" "v" rfl, h.2.2.1 samplePost rfl,
    h.2.2.2 "1" rfl⟩
